import Mathlib

/-!
Shallow embedding of the sensor and shared-I2C layer of the
Duet3Expansion firmware fragment, together with proofs of the
behavioural claims about it.

Embedded source files:
  * TemperatureSensor.h        (result cache, sticky error, staleness)
  * SharedI2CClient.cpp        (mutex-bracketed bus transaction)
  * ScanningSensorHandler.cpp  (LDC1612 reading with error masking)
  * Thermistor.cpp             (configure and poll with edge cases)
  * LIS3DH.cpp                 (accelerometer driver)

Machine integers are modelled as Nat/Int/Rat with explicit masking where
overflow matters; hardware and RTOS effects (bus transfers, mutex takes,
pin reads) are modelled as explicit environment records, and the calls a
function makes are collected in an event list so that claims about
"no bus transfer happened" are statable.
-/

namespace Duet3

/-- TemperatureError is the sensor-level result taxonomy (declared in
Heating/TemperatureError.h, used throughout the sources).  The
constructors listed are the codes the embedded sources use, plus the
timeout code required by the staleness classification. -/
inductive TemperatureError where
  | success
  | notReady
  | openCircuit
  | badVref
  | badVssa
  | timeout
  | hardwareError
  deriving DecidableEq, Repr

/-- GCodeResult as used by Configure. -/
inductive GCodeResult where
  | ok
  | error
  deriving DecidableEq, Repr

/-! ## TemperatureSensor base class (TemperatureSensor.h)

Only the header of the base class is in the sources; the bodies of
SetResult and GetLatestTemperature live in TemperatureSensor.cpp, which
is not part of this fragment, so they are modelled from the spec. -/

/-- TemperatureReadingTimeout from TemperatureSensor.h line 64: any
reading older than this number of milliseconds is considered
unreliable. -/
def TemperatureReadingTimeout : Nat := 2000

/-- Mutable state of a TemperatureSensor (fields from
TemperatureSensor.h lines 69-71). -/
structure SensorState where
  lastTemperature : ℚ
  whenLastRead : Nat
  lastResult : TemperatureError
  lastRealError : TemperatureError
  deriving DecidableEq, Repr

/-- Modelled from the spec: the body of TemperatureSensor::SetResult is
not under src (only its declaration in TemperatureSensor.h).  Per the
spec, SetResult updates the cached value and timestamp only when the
code indicates success; it always updates the last result; it updates
the sticky last error only when the code is itself an error (success
and the transient notReady are never recorded as the sticky error). -/
def SetResult (s : SensorState) (now : Nat) (t : ℚ) (rslt : TemperatureError) :
    SensorState where
  lastTemperature := if rslt = .success then t else s.lastTemperature
  whenLastRead := if rslt = .success then now else s.whenLastRead
  lastResult := rslt
  lastRealError :=
    if rslt = .success ∨ rslt = .notReady then s.lastRealError else rslt

/-- BadErrorTemperature sentinel (RepRapFirmware.h, not under src;
value taken from the firmware family this fragment belongs to). -/
def BadErrorTemperature : ℚ := 2000

/-- Modelled from the spec: the body of
TemperatureSensor::GetLatestTemperature is not under src (only its
declaration at TemperatureSensor.h line 22).  Per the spec it returns
the cached value when the last read code was success and the cache is
not older than the staleness threshold; whenever the time since the
last successful update exceeds the threshold it returns the
stale/timeout classification instead; otherwise it returns the code
classifying why (not-ready or the recorded failure). -/
def GetLatestTemperature (s : SensorState) (now : Nat) : TemperatureError × ℚ :=
  if now - s.whenLastRead > TemperatureReadingTimeout then
    (.timeout, BadErrorTemperature)
  else
    (s.lastResult, s.lastTemperature)

/-! ## SharedI2CClient (SharedI2CClient.cpp lines 16-25)

The client buffer is modelled as a total function from index to byte
value.  The underlying SharedI2CMaster is only present as a header, so
its Transfer is modelled from the spec and header: it either fails, or
succeeds having stored the received bytes at the start of the buffer
region it was handed.  The calls the client makes on the master are
collected as events so that claims about which transfers happened are
statable. -/

/-- Environment for one SharedI2CClient::Transfer call: whether the
mutex Take within the timeout succeeds, whether the bus transfer
succeeds, and the bytes the device sends back. -/
structure I2CEnv where
  takeOk : Bool
  transferOk : Bool
  received : Nat → Nat

/-- Events recorded during a SharedI2CClient::Transfer call. -/
inductive BusEvent where
  | takeFailed
  | taken
  | masterTransfer (address firstByte numToWrite numToRead : Nat)
  | released
  deriving DecidableEq, Repr

/-- Modelled from the spec: SharedI2CMaster::Transfer (declared at
SharedI2CMaster.h line 34, body not under src).  Per the spec, on
success the buffer holds the bytes read; the result is the
success/failure of the transfer.  Returns the result together with the
updated buffer region it was handed. -/
def SharedI2CMaster.Transfer (env : I2CEnv) (buf : Nat → Nat)
    (numToRead : Nat) : Bool × (Nat → Nat) :=
  (env.transferOk,
   if env.transferOk then
     fun i => if i < numToRead then env.received i else buf i
   else buf)

/-- Result of a SharedI2CClient::Transfer call: the returned Bool, the
event trace, and the final contents of the caller buffer. -/
structure ClientTransferResult where
  ret : Bool
  events : List BusEvent
  buffer : Nat → Nat

/-- SharedI2CClient::Transfer from SharedI2CClient.cpp lines 16-25:
take the bus mutex with the timeout (failure returns false with no
transfer); on success delegate to the master transfer with the bound
address, passing buffer[0] as the first byte to write and buffer+1 as
the data region, then release the mutex unconditionally and return the
underlying result. -/
def SharedI2CClient.Transfer (address : Nat) (buffer : Nat → Nat)
    (numToWrite numToRead : Nat) (env : I2CEnv) : ClientTransferResult :=
  if !env.takeOk then
    { ret := false, events := [.takeFailed], buffer := buffer }
  else
    let res := SharedI2CMaster.Transfer env (fun i => buffer (i + 1)) numToRead
    { ret := res.1
      events := [.taken, .masterTransfer address (buffer 0) numToWrite numToRead,
                 .released]
      buffer := fun i => if i = 0 then buffer 0 else res.2 (i - 1) }

/-- Discriminator for master-transfer events. -/
def BusEvent.isMasterTransfer : BusEvent → Bool
  | .masterTransfer _ _ _ _ => true
  | _ => false

/-! ## ScanningSensorHandler (ScanningSensorHandler.cpp lines 77-91) -/

/-- ScanningSensorHandler::GetReading: the sensor pointer may be null
(absent), and the LDC1612 channel-result read may fail; a successful
read yields a 32-bit value whose top 4 bits are error flags. -/
def ScanningSensorHandler.GetReading (sensorPresent : Bool)
    (channelResult : Option Nat) : Nat :=
  if sensorPresent then
    match channelResult with
    | some val => if val >>> 28 = 0 then val else 0
    | none => 0
  else 0

/-! ## Thermistor (Thermistor.cpp)

The floating-point arithmetic of the source is embedded over ℚ, with the
transcendental log function taken as a parameter (logFn), and the shared
PT100 lookup GetPT100Temperature (declared in TemperatureSensor.h, body
not under src) taken as a parameter as well.  The board configuration
modelled is the HAS_VREF_MONITOR one, which is the branch the spec
describes (reference reading minus measured reading). -/

/-- ABS_ZERO sentinel, -273.15 degrees (RepRapFirmware.h, not under
src; value from the firmware family this fragment belongs to). -/
def ABS_ZERO : ℚ := -27315 / 100

/-- MinimumConnectedTemperature threshold for the disconnection
heuristic (Thermistor.h, not under src; value from the firmware family
this fragment belongs to). -/
def MinimumConnectedTemperature : ℚ := -5

/-- AdcOversampleBits (Thermistor.h, not under src; the source comments
at Thermistor.cpp lines 130 and 143 state it was increased from 1 to
2). -/
def AdcOversampleBits : Nat := 2

/-- Maximum expected ADC reading drop, Thermistor.cpp line 107 (integer
arithmetic on non-negative values, so the C and Lean divisions
agree). -/
def maxDrop : Int :=
  (4096 * 2 ^ AdcOversampleBits * 15) / 492 + 100 * 2 ^ AdcOversampleBits

/-- Configurable and derived state of a Thermistor sensor
(Thermistor.h fields used by Thermistor.cpp). -/
structure ThermistorState where
  r25 : ℚ
  beta : ℚ
  shC : ℚ
  seriesR : ℚ
  shA : ℚ
  shB : ℚ
  isPT1000 : Bool
  deriving DecidableEq, Repr

/-- Thermistor::CalcDerivedParameters (Thermistor.cpp lines 186-191):
recompute shB then shA from beta, r25 and shC. -/
def CalcDerivedParameters (logFn : ℚ → ℚ) (s : ThermistorState) :
    ThermistorState :=
  let shB := 1 / s.beta
  let lnR25 := logFn s.r25
  { s with
    shB := shB
    shA := 1 / (25 - ABS_ZERO) - shB * lnR25 - s.shC * lnR25 * lnR25 * lnR25 }

/-- Parameter bag handed to Thermistor::Configure: whether ConfigurePort
succeeded, whether it found port parameters, and the optional R, B, C
and T float parameters of the message. -/
structure ThermParser where
  portOk : Bool
  portSeen : Bool
  pR : Option ℚ
  pB : Option ℚ
  pC : Option ℚ
  pT : Option ℚ

/-- Thermistor::Configure (Thermistor.cpp lines 33-88), HAS_VREF_MONITOR
configuration (no L/H offset parameters).  Follows the source statement
by statement: the cumulative seen flag is set by the port configuration
and by each recognised parameter in turn; after the B parameter is
fetched, shC is zeroed whenever seen is already true; then C and T are
fetched and the derived parameters recomputed when anything was seen. -/
def Thermistor.Configure (logFn : ℚ → ℚ) (p : ThermParser)
    (s : ThermistorState) : GCodeResult × ThermistorState :=
  if !p.portOk then (.error, s)
  else
    let seen := p.portSeen
    let s := { s with seriesR := p.pR.getD s.seriesR }
    let seen := p.pR.isSome || seen
    if s.isPT1000 then
      (.ok, s)
    else
      let s := { s with beta := p.pB.getD s.beta }
      let seen := p.pB.isSome || seen
      let s := if seen then { s with shC := 0 } else s
      let s := { s with shC := p.pC.getD s.shC }
      let seen := p.pC.isSome || seen
      let s := { s with r25 := p.pT.getD s.r25 }
      let seen := p.pT.isSome || seen
      (.ok, if seen then CalcDerivedParameters logFn s else s)

/-- Outcome of Thermistor::Poll, i.e. the SetResult call it makes:
either the two-argument form carrying a value, or the one-argument
error form. -/
inductive PollOutcome where
  | withValue (t : ℚ) (code : TemperatureError)
  | noValue (code : TemperatureError)
  deriving DecidableEq, Repr

/-- Inputs to one Thermistor::Poll call: validity of the three
averaging filters and the averaged readings derived from their sums
(the sum-over-count division of Thermistor.cpp lines 101-102 and 124 is
abstracted into the averaged values). -/
structure PollInputs where
  tempFilterValid : Bool
  vrefFilterValid : Bool
  vssaFilterValid : Bool
  averagedVrefReading : Int
  averagedVssaReading : Int
  averagedTempReading : Int

/-- Voltage-divider denominator of Thermistor::Poll, line 128: the
averaged reference reading minus the averaged measured reading, as a
float. -/
def Thermistor.pollDenom (inp : PollInputs) : ℚ :=
  ((inp.averagedVrefReading - inp.averagedTempReading : Int) : ℚ)

/-- Thermistor resistance computed by Thermistor::Poll, line 141. -/
def Thermistor.pollResistance (s : ThermistorState) (inp : PollInputs) : ℚ :=
  s.seriesR * ((inp.averagedTempReading - inp.averagedVssaReading : Int) : ℚ) /
    Thermistor.pollDenom inp

/-- Temperature implied by the cubic Steinhart-Hart form,
Thermistor.cpp lines 161-163: the reciprocal temperature from the
configured coefficients, inverted when positive and otherwise replaced
by the BadErrorTemperature sentinel. -/
def Thermistor.steinhartTemp (logFn : ℚ → ℚ) (s : ThermistorState)
    (inp : PollInputs) : ℚ :=
  let logResistance := logFn (Thermistor.pollResistance s inp)
  let recipT := s.shA + s.shB * logResistance +
    s.shC * logResistance * logResistance * logResistance
  if recipT > 0 then 1 / recipT + ABS_ZERO else BadErrorTemperature

/-- Thermistor::Poll (Thermistor.cpp lines 91-183), HAS_VREF_MONITOR
configuration: check filter validity, then the VREF and VSSA sanity
limits, then compute the divider denominator; a non-positive
denominator reports open circuit at absolute zero; otherwise compute
the resistance and either run the PT100 lookup or the Steinhart-Hart
form, mapping an implied temperature below the minimum plausible
connected temperature to open circuit at absolute zero. -/
def Thermistor.Poll (logFn : ℚ → ℚ) (pt100 : ℚ → ℚ × TemperatureError)
    (s : ThermistorState) (inp : PollInputs) : PollOutcome :=
  if inp.tempFilterValid && inp.vrefFilterValid && inp.vssaFilterValid then
    if inp.averagedVrefReading < 4096 * 2 ^ AdcOversampleBits - maxDrop then
      .noValue .badVref
    else if inp.averagedVssaReading > maxDrop then
      .noValue .badVssa
    else
      if Thermistor.pollDenom inp ≤ 0 then .withValue ABS_ZERO .openCircuit
      else
        if s.isPT1000 then
          let r := pt100 (Thermistor.pollResistance s inp)
          .withValue r.1 r.2
        else
          let temp := Thermistor.steinhartTemp logFn s inp
          if temp < MinimumConnectedTemperature then
            .withValue ABS_ZERO .openCircuit
          else
            .withValue temp .success
  else
    .noValue .notReady

/-! ## LIS3DH accelerometer driver (LIS3DH.cpp)

The configuration modelled is the I2C one (matching the
SharedI2CClient under src).  Register addresses come from the chip
register map declared in LIS3DH.h, which is not under src; only the
Ctrl_0x20 address matters to the claims and it is named by the source
itself. -/

/-- Accelerometer chip variants (LIS3DH.h AccelerometerType). -/
inductive AccelerometerType where
  | LIS3DH
  | LIS3DSH
  | LIS2DW
  deriving DecidableEq, Repr

/-- Ctrl_0x20 register address (named by the source identifier). -/
def LisRegister.Ctrl_0x20 : Nat := 0x20

/-- OutXL register address (LIS3DH.h, standard ST register map). -/
def LisRegister.OutXL : Nat := 0x28

/-- FifoControl register address (LIS3DH.h, standard ST register map). -/
def LisRegister.FifoControl : Nat := 0x2E

/-- FifoSource register address (LIS3DH.h, standard ST register map). -/
def LisRegister.FifoSource : Nat := 0x2F

/-- WhoAmI register address (LIS3DH.h, standard ST register map). -/
def LisRegister.WhoAmI : Nat := 0x0F

/-- Bus traffic event of one LIS3DH register operation: the first byte
put on the bus (register address plus flag bits) and the write/read
byte counts handed to the underlying transfer. -/
inductive LisEvent where
  | busTransfer (firstByte numToWrite numToRead : Nat)
  deriving DecidableEq, Repr

/-- LIS3DH::WriteRegisters, I2C branch (Thermistor.cpp fragment lines
588-608 of the combined file): registers below 0x1E are the factory
calibration range and the write is refused with no bus transfer;
otherwise the auto-increment bit is set for multi-byte writes on the
LIS3DH variant and one transfer of 1+numToWrite bytes is performed,
whose success (transferOk) is returned. -/
def LIS3DH.WriteRegisters (ty : AccelerometerType) (transferOk : Bool)
    (reg : Nat) (numToWrite : Nat) : Bool × List LisEvent :=
  if reg < 0x1E then (false, [])
  else
    let regAddr :=
      if numToWrite < 2 ∨ ty ≠ AccelerometerType.LIS3DH then reg else reg ||| 0x80
    (transferOk, [.busTransfer regAddr (1 + numToWrite) 0])

/-- LIS3DH::WriteRegister (lines 621-625): store the value in the
transfer buffer and delegate to WriteRegisters with count 1. -/
def LIS3DH.WriteRegister (ty : AccelerometerType) (transferOk : Bool)
    (reg : Nat) (_val : Nat) : Bool × List LisEvent :=
  LIS3DH.WriteRegisters ty transferOk reg 1

/-- LIS3DH::ReadRegisters, I2C branch (lines 563-586): the
auto-increment bit is set for multi-byte reads on the LIS3DH variant
and one transfer writing 1 byte and reading numToRead bytes is
performed. -/
def LIS3DH.ReadRegisters (ty : AccelerometerType) (transferOk : Bool)
    (reg : Nat) (numToRead : Nat) : Bool × List LisEvent :=
  let regAddr :=
    if numToRead < 2 ∨ ty ≠ AccelerometerType.LIS3DH then reg else reg ||| 0x80
  (transferOk, [.busTransfer regAddr 1 numToRead])

/-- FIFO-not-empty test of the StartCollecting drain loops (lines 459
and 473): LIS3DH and LIS3DSH keep draining while the empty flag (bit 5
of FifoSource) is clear; the LIS2DW keeps draining while the sample
count (low 6 bits) is nonzero. -/
def fifoNotEmpty (ty : AccelerometerType) (v : Nat) : Bool :=
  match ty with
  | .LIS2DW => v &&& 0x3F != 0
  | _ => v &&& 0x20 == 0

/-- One iteration of the drain loop as seen by the environment: the
outcome of the FifoSource read (none if the bus read failed) and the
outcome of the subsequent six-byte OutXL read. -/
structure DrainStep where
  fifoRead : Option Nat
  drainOk : Bool

/-- Drain loop of StartCollecting (lines 453-482) over the finite trace
of device responses: a failed FifoSource read or an empty FIFO exits
the loop and lets the call continue (true); a failed OutXL burst makes
StartCollecting return false (false).  An exhausted trace behaves as a
run whose next status read fails. -/
def drainFifo (ty : AccelerometerType) : List DrainStep → Bool
  | [] => true
  | step :: rest =>
    match step.fifoRead with
    | none => true
    | some v =>
      if fifoNotEmpty ty v then
        if step.drainOk then drainFifo ty rest else false
      else true

/-- Environment of one StartCollecting call: the drain-loop trace, the
INT1 pin level read after the settling delay, and the outcomes of the
control-register write and of attachInterrupt. -/
structure StartEnv where
  drainSteps : List DrainStep
  int1PinHigh : Bool
  ctrlWriteOk : Bool
  attachOk : Bool

/-- Observable outcome of one StartCollecting call: the returned Bool,
the interruptError flag after the call, the value written to Ctrl_0x20
if the write was attempted, and whether attachInterrupt was called. -/
structure StartResult where
  ret : Bool
  interruptError : Bool
  ctrlWritten : Option Nat
  attachAttempted : Bool
  deriving DecidableEq, Repr

/-- LIS3DH::StartCollecting (lines 448-501): compute the control value
(axes merged in for LIS3DH/LIS3DSH), drain the FIFO, then read the INT1
line; a high line sets interruptError and refuses collection with no
control write and no interrupt attach; otherwise the control register
is written and, if that write succeeded, the interrupt attached, the
call returning the conjunction of both outcomes. -/
def LIS3DH.StartCollecting (ty : AccelerometerType) (ctrlReg20 : Nat)
    (axes : Nat) (prevInterruptError : Bool) (env : StartEnv) : StartResult :=
  let ctrlRegValue :=
    match ty with
    | .LIS2DW => ctrlReg20
    | _ => ctrlReg20 ||| (axes &&& 7)
  if !drainFifo ty env.drainSteps then
    { ret := false, interruptError := prevInterruptError,
      ctrlWritten := none, attachAttempted := false }
  else
    let interruptError := env.int1PinHigh
    if interruptError then
      { ret := false, interruptError := true,
        ctrlWritten := none, attachAttempted := false }
    else
      let ok := env.ctrlWriteOk
      { ret := ok && env.attachOk, interruptError := false,
        ctrlWritten := some ctrlRegValue, attachAttempted := ok }

/-- Number of FIFO samples CollectData decides to read from the
FifoSource status byte (lines 521-537): LIS3DH/LIS3DSH use the low 5
bits, with the special case that a zero count with the empty flag clear
means a full FIFO of 32; the LIS2DW uses the low 6 bits. -/
def availableSamples (ty : AccelerometerType) (fifoStatus : Nat) : Nat :=
  match ty with
  | .LIS2DW => fifoStatus &&& 0x3F
  | _ =>
    let n := fifoStatus &&& 0x1F
    if n = 0 ∧ fifoStatus &&& 0x20 = 0 then 32 else n

/-- Environment of one CollectData call after the watermark wake: the
FifoSource status read outcome and the outcome of the bulk OutXL
read. -/
structure CollectEnv where
  fifoStatusRead : Option Nat
  bulkReadOk : Bool

/-- Observable outcome of one CollectData call: the returned sample
count, the overflowed out-parameter (none when the source leaves it
unassigned), the sizes of the burst reads performed, the dataRate
out-parameter and the updated running sample count. -/
structure CollectResult where
  numRead : Nat
  overflowed : Option Bool
  burstReads : List Nat
  dataRate : Nat
  totalNumRead : Nat
  deriving DecidableEq, Repr

/-- LIS3DH::CollectData (lines 504-555), after the wait loop has been
woken by the INT1 interrupt: read the FIFO status (failure returns 0),
compute the available sample count, and if nonzero bulk-read that many
6-byte samples in one burst (failure returns 0), reporting the overflow
bit of the status byte and the running data-rate estimate (timer tick
subtraction taken modulo 2^32 and the rate truncated to the uint16 out
parameter). -/
def LIS3DH.CollectData (ty : AccelerometerType) (totalNumRead : Nat)
    (firstInterruptTime lastInterruptTime stepClockRate : Nat)
    (env : CollectEnv) : CollectResult :=
  match env.fifoStatusRead with
  | none =>
    { numRead := 0, overflowed := none, burstReads := [], dataRate := 0,
      totalNumRead := totalNumRead }
  | some fifoStatus =>
    let numToRead := availableSamples ty fifoStatus
    if numToRead ≠ 0 then
      if !env.bulkReadOk then
        { numRead := 0, overflowed := none, burstReads := [6 * numToRead],
          dataRate := 0, totalNumRead := totalNumRead }
      else
        let dataRate :=
          if totalNumRead = 0 then 0
          else (totalNumRead * stepClockRate /
            ((lastInterruptTime + 2 ^ 32 - firstInterruptTime) % 2 ^ 32)) % 2 ^ 16
        { numRead := numToRead
          overflowed := some (decide (fifoStatus &&& 0x40 ≠ 0))
          burstReads := [6 * numToRead]
          dataRate := dataRate
          totalNumRead := totalNumRead + numToRead }
    else
      { numRead := 0, overflowed := none, burstReads := [], dataRate := 0,
        totalNumRead := totalNumRead }

/-! ## Claim theorems -/

/-- C1: every SetResult call updates the last-result field to the given
code; a call with a success or notReady code leaves the sticky
last-error field (the value GetLastError returns) unchanged; a call
with any other failure code sets the sticky last-error field to that
code. -/
theorem setResult_sticky_error (s : SensorState) (now : Nat) (t : ℚ)
    (rslt : TemperatureError) :
    (SetResult s now t rslt).lastResult = rslt ∧
    ((rslt = .success ∨ rslt = .notReady) →
      (SetResult s now t rslt).lastRealError = s.lastRealError) ∧
    (rslt ≠ .success → rslt ≠ .notReady →
      (SetResult s now t rslt).lastRealError = rslt) := by
  refine ⟨rfl, fun h => ?_, fun h1 h2 => ?_⟩
  · simp [SetResult, h]
  · simp [SetResult, h1, h2]

/-- Witness for C1 at concrete inputs: a notReady result keeps the
sticky openCircuit error, while a badVref result overwrites it, and
the last result is updated in both cases. -/
theorem setResult_sticky_error_witness :
    (SetResult ⟨20, 100, .success, .openCircuit⟩ 200 25 .notReady).lastResult
        = .notReady ∧
    (SetResult ⟨20, 100, .success, .openCircuit⟩ 200 25 .notReady).lastRealError
        = .openCircuit ∧
    (SetResult ⟨20, 100, .success, .openCircuit⟩ 200 25 .badVref).lastRealError
        = .badVref :=
  ⟨(setResult_sticky_error ⟨20, 100, .success, .openCircuit⟩ 200 25 .notReady).1,
   (setResult_sticky_error ⟨20, 100, .success, .openCircuit⟩ 200 25 .notReady).2.1
     (Or.inr rfl),
   (setResult_sticky_error ⟨20, 100, .success, .openCircuit⟩ 200 25 .badVref).2.2
     (by decide) (by decide)⟩

/-- C2: whenever GetLatestTemperature is called more than
TemperatureReadingTimeout (2000) milliseconds after the last successful
SetResult update, it returns the timeout classification with the
sentinel value instead of the cached reading, regardless of the cached
numeric value. -/
theorem getLatestTemperature_stale (s : SensorState) (t0 now : Nat) (v : ℚ)
    (h : now - t0 > TemperatureReadingTimeout) :
    GetLatestTemperature (SetResult s t0 v .success) now =
      (.timeout, BadErrorTemperature) := by
  have hw : (SetResult s t0 v .success).whenLastRead = t0 := by
    simp [SetResult]
  simp [GetLatestTemperature, hw, h]

/-- Witness for C2: a successful update at time 0 queried at time 2001
reports timeout even though the cached value is 25 degrees. -/
theorem getLatestTemperature_stale_witness :
    GetLatestTemperature (SetResult ⟨0, 0, .success, .success⟩ 0 25 .success) 2001 =
      (.timeout, BadErrorTemperature) :=
  getLatestTemperature_stale ⟨0, 0, .success, .success⟩ 0 2001 25 (by decide)

/-- C3: a SharedI2CClient::Transfer call whose mutex Take fails within
the timeout returns false having performed no master transfer;
otherwise it performs exactly one master transfer with the bound
address, releases the mutex exactly once on both success and failure of
the transfer, and returns the underlying transfer result. -/
theorem sharedI2CClient_transfer_spec (address : Nat) (buffer : Nat → Nat)
    (numToWrite numToRead : Nat) (env : I2CEnv) :
    (env.takeOk = false →
      (SharedI2CClient.Transfer address buffer numToWrite numToRead env).ret = false ∧
      ((SharedI2CClient.Transfer address buffer numToWrite numToRead env).events.filter
          BusEvent.isMasterTransfer) = []) ∧
    (env.takeOk = true →
      ((SharedI2CClient.Transfer address buffer numToWrite numToRead env).events.filter
          BusEvent.isMasterTransfer)
        = [.masterTransfer address (buffer 0) numToWrite numToRead] ∧
      (SharedI2CClient.Transfer address buffer numToWrite numToRead env).events.count
          .released = 1 ∧
      (SharedI2CClient.Transfer address buffer numToWrite numToRead env).ret
        = env.transferOk) := by
  refine ⟨fun h => ?_, fun h => ?_⟩
  · simp [SharedI2CClient.Transfer, h, BusEvent.isMasterTransfer]
  · simp [SharedI2CClient.Transfer, h, SharedI2CMaster.Transfer,
      BusEvent.isMasterTransfer, List.count_cons, List.count_nil]

/-- Witness for C3 at concrete inputs: a failed Take returns false with
no transfer, and a successful Take with a failed underlying transfer
still releases the mutex and reports the failure. -/
theorem sharedI2CClient_transfer_spec_witness :
    ((SharedI2CClient.Transfer 0x30 (fun _ => 7) 1 2 ⟨false, true, fun _ => 0⟩).ret
        = false) ∧
    ((SharedI2CClient.Transfer 0x30 (fun _ => 7) 1 2 ⟨true, false, fun _ => 0⟩).events.count
        .released = 1) ∧
    ((SharedI2CClient.Transfer 0x30 (fun _ => 7) 1 2 ⟨true, false, fun _ => 0⟩).ret
        = false) :=
  ⟨((sharedI2CClient_transfer_spec 0x30 (fun _ => 7) 1 2 ⟨false, true, fun _ => 0⟩).1
      rfl).1,
   ((sharedI2CClient_transfer_spec 0x30 (fun _ => 7) 1 2 ⟨true, false, fun _ => 0⟩).2
      rfl).2.1,
   ((sharedI2CClient_transfer_spec 0x30 (fun _ => 7) 1 2 ⟨true, false, fun _ => 0⟩).2
      rfl).2.2⟩

/-- C9: a SharedI2CClient::Transfer call that acquires the bus always
passes the byte at index 0 of the caller buffer to the master as the
first byte to write, whatever numToWrite is (including 0); the byte at
index 0 is never overwritten, and on a successful transfer the bytes
read back are stored starting at index 1 of the caller buffer. -/
theorem sharedI2CClient_buffer_convention (address : Nat) (buffer : Nat → Nat)
    (numToWrite numToRead : Nat) (env : I2CEnv) (h : env.takeOk = true) :
    (SharedI2CClient.Transfer address buffer numToWrite numToRead env).events
      = [.taken, .masterTransfer address (buffer 0) numToWrite numToRead, .released] ∧
    (SharedI2CClient.Transfer address buffer numToWrite numToRead env).buffer 0
      = buffer 0 ∧
    (env.transferOk = true → ∀ i, i < numToRead →
      (SharedI2CClient.Transfer address buffer numToWrite numToRead env).buffer (i + 1)
        = env.received i) := by
  refine ⟨?_, ?_, fun hok i hi => ?_⟩
  · simp [SharedI2CClient.Transfer, h]
  · simp [SharedI2CClient.Transfer, h]
  · simp [SharedI2CClient.Transfer, h, SharedI2CMaster.Transfer, hok, hi]

/-- Witness for C9 at a concrete call with numToWrite = 0: the leading
buffer byte is still sent as the first byte and the two received bytes
land at indices 1 and 2. -/
theorem sharedI2CClient_buffer_convention_witness :
    (SharedI2CClient.Transfer 0x30 (fun _ => 7) 0 2 ⟨true, true, fun i => 40 + i⟩).events
      = [.taken, .masterTransfer 0x30 7 0 2, .released] ∧
    (SharedI2CClient.Transfer 0x30 (fun _ => 7) 0 2 ⟨true, true, fun i => 40 + i⟩).buffer 1
      = 40 ∧
    (SharedI2CClient.Transfer 0x30 (fun _ => 7) 0 2 ⟨true, true, fun i => 40 + i⟩).buffer 2
      = 41 :=
  ⟨(sharedI2CClient_buffer_convention 0x30 (fun _ => 7) 0 2 ⟨true, true, fun i => 40 + i⟩
      rfl).1,
   ((sharedI2CClient_buffer_convention 0x30 (fun _ => 7) 0 2 ⟨true, true, fun i => 40 + i⟩
      rfl).2.2 rfl 0 (by decide)).trans rfl,
   ((sharedI2CClient_buffer_convention 0x30 (fun _ => 7) 0 2 ⟨true, true, fun i => 40 + i⟩
      rfl).2.2 rfl 1 (by decide)).trans rfl⟩

/-- C10: ScanningSensorHandler::GetReading returns 0 when the sensor is
absent, when the channel-result read fails, and when any of the top 4
error bits of the device result is set; every nonzero return value is
the successfully read conversion result and is strictly below 2^28. -/
theorem scanningSensor_getReading_spec (present : Bool) (chres : Option Nat) :
    (present = false → ScanningSensorHandler.GetReading present chres = 0) ∧
    (chres = none → ScanningSensorHandler.GetReading present chres = 0) ∧
    (∀ val, chres = some val → val >>> 28 ≠ 0 →
      ScanningSensorHandler.GetReading present chres = 0) ∧
    (ScanningSensorHandler.GetReading present chres ≠ 0 →
      ScanningSensorHandler.GetReading present chres < 2 ^ 28 ∧
      chres = some (ScanningSensorHandler.GetReading present chres)) := by
  refine ⟨fun h => ?_, fun h => ?_, fun val hv herr => ?_, fun hne => ?_⟩
  · simp [ScanningSensorHandler.GetReading, h]
  · cases present <;> simp [ScanningSensorHandler.GetReading, h]
  · cases present <;> simp [ScanningSensorHandler.GetReading, hv, herr]
  · cases present with
    | false => simp [ScanningSensorHandler.GetReading] at hne
    | true =>
      cases chres with
      | none => simp [ScanningSensorHandler.GetReading] at hne
      | some val =>
        by_cases herr : val >>> 28 = 0
        · have hval : ScanningSensorHandler.GetReading true (some val) = val := by
            simp [ScanningSensorHandler.GetReading, herr]
          rw [hval]
          rw [Nat.shiftRight_eq_div_pow] at herr
          exact ⟨(Nat.div_eq_zero_iff (by positivity)).mp herr, rfl⟩
        · simp [ScanningSensorHandler.GetReading, herr] at hne

/-- Witness for C10 at concrete inputs: an absent sensor, a failed
read and an error-flagged result all return 0, and a clean result is
returned verbatim below 2^28. -/
theorem scanningSensor_getReading_spec_witness :
    ScanningSensorHandler.GetReading false (some 5) = 0 ∧
    ScanningSensorHandler.GetReading true none = 0 ∧
    ScanningSensorHandler.GetReading true (some (2 ^ 28 + 3)) = 0 ∧
    ScanningSensorHandler.GetReading true (some 123456) < 2 ^ 28 :=
  ⟨((scanningSensor_getReading_spec false (some 5)).1 rfl),
   ((scanningSensor_getReading_spec true none).2.1 rfl),
   ((scanningSensor_getReading_spec true (some (2 ^ 28 + 3))).2.2.1 (2 ^ 28 + 3) rfl
      (by decide)),
   ((scanningSensor_getReading_spec true (some 123456)).2.2.2 (by decide)).1⟩

/-- C4: in the thermistor Poll computation (filters valid, VREF and
VSSA within limits), a non-positive voltage-divider denominator yields
the absolute-zero sentinel with the openCircuit code; in thermistor
(non-PT1000) mode a Steinhart-Hart temperature below the minimum
plausible connected temperature likewise yields absolute zero with
openCircuit; and in neither edge case is any value reported with the
success code. -/
theorem thermistor_poll_edge_cases (logFn : ℚ → ℚ)
    (pt100 : ℚ → ℚ × TemperatureError) (s : ThermistorState) (inp : PollInputs)
    (hvalid : inp.tempFilterValid = true ∧ inp.vrefFilterValid = true ∧
      inp.vssaFilterValid = true)
    (hvref : ¬ inp.averagedVrefReading < 4096 * 2 ^ AdcOversampleBits - maxDrop)
    (hvssa : ¬ inp.averagedVssaReading > maxDrop) :
    (Thermistor.pollDenom inp ≤ 0 →
      Thermistor.Poll logFn pt100 s inp = .withValue ABS_ZERO .openCircuit) ∧
    (0 < Thermistor.pollDenom inp → s.isPT1000 = false →
      Thermistor.steinhartTemp logFn s inp < MinimumConnectedTemperature →
      Thermistor.Poll logFn pt100 s inp = .withValue ABS_ZERO .openCircuit) ∧
    ((Thermistor.pollDenom inp ≤ 0 ∨
        (s.isPT1000 = false ∧
          Thermistor.steinhartTemp logFn s inp < MinimumConnectedTemperature)) →
      ∀ t, Thermistor.Poll logFn pt100 s inp ≠ .withValue t .success) := by
  obtain ⟨h1, h2, h3⟩ := hvalid
  have hA : Thermistor.pollDenom inp ≤ 0 →
      Thermistor.Poll logFn pt100 s inp = .withValue ABS_ZERO .openCircuit := by
    intro hd
    simp [Thermistor.Poll, h1, h2, h3, hvref, hvssa, hd]
  have hB : 0 < Thermistor.pollDenom inp → s.isPT1000 = false →
      Thermistor.steinhartTemp logFn s inp < MinimumConnectedTemperature →
      Thermistor.Poll logFn pt100 s inp = .withValue ABS_ZERO .openCircuit := by
    intro hd hpt htemp
    simp [Thermistor.Poll, h1, h2, h3, hvref, hvssa, not_le.mpr hd, hpt, htemp]
  refine ⟨hA, hB, fun hcase t => ?_⟩
  rcases hcase with hd | ⟨hpt, htemp⟩
  · rw [hA hd]; simp
  · rcases le_or_lt (Thermistor.pollDenom inp) 0 with hd | hd
    · rw [hA hd]; simp
    · rw [hB hd hpt htemp]; simp

/-- Witness for C4 at concrete inputs: with valid filters and sane
VREF/VSSA readings, a measured reading equal to the reference (zero
denominator) reports open circuit at absolute zero, and a parameter set
implying -272.15 degrees also reports open circuit at absolute zero. -/
theorem thermistor_poll_edge_cases_witness :
    Thermistor.Poll (fun _ => 0) (fun _ => (0, .success))
        ⟨10000, 3988, 0, 2200, 1, 0, false⟩
        ⟨true, true, true, 16384, 0, 16384⟩ = .withValue ABS_ZERO .openCircuit ∧
    Thermistor.Poll (fun _ => 0) (fun _ => (0, .success))
        ⟨10000, 3988, 0, 2200, 1, 0, false⟩
        ⟨true, true, true, 16384, 0, 16000⟩ = .withValue ABS_ZERO .openCircuit :=
  ⟨(thermistor_poll_edge_cases (fun _ => 0) (fun _ => (0, .success))
      ⟨10000, 3988, 0, 2200, 1, 0, false⟩ ⟨true, true, true, 16384, 0, 16384⟩
      ⟨rfl, rfl, rfl⟩ (by decide) (by decide)).1 (by decide),
   (thermistor_poll_edge_cases (fun _ => 0) (fun _ => (0, .success))
      ⟨10000, 3988, 0, 2200, 1, 0, false⟩ ⟨true, true, true, 16384, 0, 16000⟩
      ⟨rfl, rfl, rfl⟩ (by decide) (by decide)).2.1 (by decide) rfl
      (by norm_num [Thermistor.steinhartTemp, Thermistor.pollResistance,
        Thermistor.pollDenom, ABS_ZERO, MinimumConnectedTemperature])⟩

/-- C5 (evidence of the divergence): a Configure call on a thermistor
that supplies only the series resistor R, with no B, C or T parameter
and no port parameter, nevertheless resets the configured cubic
coefficient shC to zero, because Thermistor.cpp line 45 tests the
cumulative seen flag rather than whether B was present; the source
comment at line 47 (assume C=0 only when the user changes B without
defining C) and the spec say the cubic coefficient must be left
unchanged by such a call. -/
theorem thermistor_configure_R_resets_shC :
    (Thermistor.Configure (fun _ => 0)
        ⟨true, false, some 4700, none, none, none⟩
        ⟨10000, 3988, 7 / 100000000, 2200, 0, 0, false⟩).2.shC = 0 ∧
    (7 / 100000000 : ℚ) ≠ 0 := by
  constructor
  · rfl
  · norm_num

/-- C6: StartCollecting with the FIFO successfully drained but the INT1
line reading high refuses collection, returning false with the
interrupt-error flag set, no control-register write and no interrupt
attach; conversely the control register is only written when the drain
loop completed and the line read low, and the interrupt is only
attached when the control register was written. -/
theorem lis3dh_startCollecting_interrupt_guard (ty : AccelerometerType)
    (ctrlReg20 axes : Nat) (prev : Bool) (env : StartEnv) :
    (drainFifo ty env.drainSteps = true → env.int1PinHigh = true →
      LIS3DH.StartCollecting ty ctrlReg20 axes prev env =
        { ret := false, interruptError := true, ctrlWritten := none,
          attachAttempted := false }) ∧
    (∀ v, (LIS3DH.StartCollecting ty ctrlReg20 axes prev env).ctrlWritten = some v →
      drainFifo ty env.drainSteps = true ∧ env.int1PinHigh = false) ∧
    ((LIS3DH.StartCollecting ty ctrlReg20 axes prev env).attachAttempted = true →
      (LIS3DH.StartCollecting ty ctrlReg20 axes prev env).ctrlWritten ≠ none) := by
  cases hdv : drainFifo ty env.drainSteps with
  | false =>
    refine ⟨fun hd2 _ => by simp [hdv] at hd2, fun v hv => ?_, fun ha => ?_⟩
    · simp [LIS3DH.StartCollecting, hdv] at hv
    · simp [LIS3DH.StartCollecting, hdv] at ha
  | true =>
    cases hpv : env.int1PinHigh with
    | true =>
      refine ⟨fun _ _ => by simp [LIS3DH.StartCollecting, hdv, hpv],
        fun v hv => ?_, fun ha => ?_⟩
      · simp [LIS3DH.StartCollecting, hdv, hpv] at hv
      · simp [LIS3DH.StartCollecting, hdv, hpv] at ha
    | false =>
      exact ⟨fun _ hp2 => by simp [hpv] at hp2,
        fun v _ => ⟨rfl, rfl⟩,
        fun _ => by simp [LIS3DH.StartCollecting, hdv, hpv]⟩

/-- Witness for C6: with an empty drain trace (first status read ends
the loop) and the INT1 line forced high, StartCollecting refuses to
arm. -/
theorem lis3dh_startCollecting_interrupt_guard_witness :
    LIS3DH.StartCollecting .LIS3DH 0x97 7 false ⟨[], true, true, true⟩ =
      { ret := false, interruptError := true, ctrlWritten := none,
        attachAttempted := false } :=
  (lis3dh_startCollecting_interrupt_guard .LIS3DH 0x97 7 false
    ⟨[], true, true, true⟩).1 rfl rfl

/-- C7: a CollectData call whose FIFO status read succeeds and
indicates 24 available samples with the overflow bit clear, for any
chip variant, returns a sample count of 24 with the overflowed output
flag false, having issued exactly one burst read of 24 three-axis
(6-byte) samples. -/
theorem lis3dh_collectData_watermark (ty : AccelerometerType)
    (total firstTime lastTime rate : Nat) (env : CollectEnv) (fifoStatus : Nat)
    (hread : env.fifoStatusRead = some fifoStatus)
    (hbulk : env.bulkReadOk = true)
    (havail : availableSamples ty fifoStatus = 24)
    (hovf : fifoStatus &&& 0x40 = 0) :
    (LIS3DH.CollectData ty total firstTime lastTime rate env).numRead = 24 ∧
    (LIS3DH.CollectData ty total firstTime lastTime rate env).overflowed
      = some false ∧
    (LIS3DH.CollectData ty total firstTime lastTime rate env).burstReads
      = [144] := by
  simp [LIS3DH.CollectData, hread, havail, hbulk, hovf]

/-- Witness for C7: a LIS2DW status byte of 24 with overflow clear
yields 24 samples, no overflow. -/
theorem lis3dh_collectData_watermark_witness :
    (LIS3DH.CollectData .LIS2DW 0 0 0 0 ⟨some 24, true⟩).numRead = 24 ∧
    (LIS3DH.CollectData .LIS2DW 0 0 0 0 ⟨some 24, true⟩).overflowed
      = some false :=
  ⟨(lis3dh_collectData_watermark .LIS2DW 0 0 0 0 ⟨some 24, true⟩ 24 rfl rfl
      (by decide) (by decide)).1,
   (lis3dh_collectData_watermark .LIS2DW 0 0 0 0 ⟨some 24, true⟩ 24 rfl rfl
      (by decide) (by decide)).2.1⟩

/-- C8: WriteRegisters (and hence WriteRegister) on any register
address below 0x1E returns false having performed no bus transfer; on
any address at or above 0x1E the guard does not reject the write: one
transfer is performed and its outcome returned. -/
theorem lis3dh_writeRegisters_guard (ty : AccelerometerType) (ok : Bool)
    (reg numToWrite val : Nat) :
    (reg < 0x1E →
      LIS3DH.WriteRegisters ty ok reg numToWrite = (false, []) ∧
      LIS3DH.WriteRegister ty ok reg val = (false, [])) ∧
    (0x1E ≤ reg →
      (LIS3DH.WriteRegisters ty ok reg numToWrite).1 = ok ∧
      (LIS3DH.WriteRegisters ty ok reg numToWrite).2.length = 1) := by
  refine ⟨fun h => ?_, fun h => ?_⟩
  · constructor <;> simp [LIS3DH.WriteRegisters, LIS3DH.WriteRegister, h]
  · have h2 : ¬ reg < 0x1E := not_lt.mpr h
    constructor <;> simp [LIS3DH.WriteRegisters, h2]

/-- Witness for C8: a write to register 0x10 is refused with no bus
traffic, while a write to Ctrl_0x20 goes through as one transfer. -/
theorem lis3dh_writeRegisters_guard_witness :
    LIS3DH.WriteRegisters .LIS3DH true 0x10 6 = (false, []) ∧
    (LIS3DH.WriteRegisters .LIS3DH true LisRegister.Ctrl_0x20 6).1 = true ∧
    (LIS3DH.WriteRegisters .LIS3DH true LisRegister.Ctrl_0x20 6).2.length = 1 :=
  ⟨((lis3dh_writeRegisters_guard .LIS3DH true 0x10 6 0).1 (by decide)).1,
   ((lis3dh_writeRegisters_guard .LIS3DH true LisRegister.Ctrl_0x20 6 0).2
      (by decide)).1,
   ((lis3dh_writeRegisters_guard .LIS3DH true LisRegister.Ctrl_0x20 6 0).2
      (by decide)).2⟩

end Duet3
